import Mathlib

/-!
Verification development for the GitHub-updates newsletter backend
(`server.js`).  The JavaScript source is shallowly embedded below:

* pure functions (`formatGitHubEvents`, `getEnhancedMockGitHubEvents`)
  become Lean functions;
* the endpoint-trying loop of `fetchGitHubTimeline` becomes a recursion
  over the list of per-endpoint outcomes (one outcome per candidate URL,
  in order);
* the Express handlers (`/api/signup`, `/api/send-updates`,
  `/api/unsubscribe`) become explicit state-passing functions over the
  subscriber table, with the fallible external collaborators (store
  errors, the e-mail transport) supplied as boolean/functional
  parameters;
* ambient effects that the code consults (`Math.random`, `Date.now`,
  `toLocaleString`) are passed in as explicit parameters, so that
  dependence or independence on them is provable.

Timestamps are modelled as integer epoch milliseconds; the ISO-string
rendering of a timestamp is abstracted to the numeric instant (no claim
below inspects the text of a timestamp).
-/

namespace GithubUpdates

/-- `event.actor` — the JSON object carrying the acting user's handle. -/
structure Actor where
  login : String
  deriving DecidableEq, Repr

/-- `event.repo` — the JSON object carrying the repository name. -/
structure Repo where
  name : String
  deriving DecidableEq, Repr

/-- A GitHub event record as consumed by the server: its `type` string,
its actor, its repository and its `created_at` instant (epoch millis). -/
structure Event where
  type : String
  actor : Actor
  repo : Repo
  created_at : Int
  deriving DecidableEq, Repr

/-! ## Event Source Adapter (`fetchGitHubTimeline`, server.js lines 39–112) -/

/-- The four candidate endpoint URLs tried in order by
`fetchGitHubTimeline` (server.js lines 41–46). -/
def endpoints : List String :=
  [ "https://api.github.com/events"
  , "https://api.github.com/users/github/events/public"
  , "https://api.github.com/users/torvalds/events/public"
  , "https://api.github.com/users/gaearon/events/public" ]

/-- What a single candidate endpoint did when queried: a 2xx response
whose body parsed to a list of events (`response.ok`), a non-2xx HTTP
status (403, 401 or any other), or a thrown error (network failure or
parse failure), which the `catch` block absorbs. -/
inductive EndpointOutcome where
  | ok (events : List Event)
  | httpError (status : Nat)
  | netError
  deriving DecidableEq, Repr

/-- Whether the outcome is a 2xx response. -/
def EndpointOutcome.isOk : EndpointOutcome → Bool
  | .ok _ => true
  | _ => false

/-- The `.includes` whitelist of server.js line 82. -/
def interestingTypes : List String :=
  [ "PushEvent", "CreateEvent", "WatchEvent", "ForkEvent"
  , "PullRequestEvent", "IssuesEvent", "ReleaseEvent" ]

/-- The pool of repository names of the mock generator (lines 117–121). -/
def repositories : List String :=
  [ "microsoft/vscode", "facebook/react", "tensorflow/tensorflow"
  , "kubernetes/kubernetes", "nodejs/node", "angular/angular"
  , "vuejs/vue", "python/cpython", "golang/go", "rust-lang/rust" ]

/-- The pool of user handles of the mock generator (lines 123–126). -/
def users : List String :=
  [ "octocat", "torvalds", "gaearon", "addyosmani", "sindresorhus"
  , "tj", "defunkt", "mojombo", "dhh", "wycats" ]

/-- The pool of event kinds of the mock generator (line 128). -/
def mockEventTypes : List String :=
  [ "PushEvent", "CreateEvent", "WatchEvent", "ForkEvent", "PullRequestEvent" ]

/-- `getEnhancedMockGitHubEvents` (server.js lines 115–142): builds 10
synthetic events.  Each record draws an event kind, a repository and a
user from the fixed pools via `Math.floor(Math.random() * pool.length)`;
the stream of random draws is modelled by `rand` (indexed by draw
number, reduced into range by `% pool.length`, which is exactly the
range `Math.floor(Math.random() * len)` produces).  `now` is
`new Date().getTime()`; record `i` is stamped `i` hours earlier. -/
def getEnhancedMockGitHubEvents (rand : Nat → Nat) (now : Int) : List Event :=
  (List.range 10).map fun i =>
    { type := mockEventTypes.getD (rand (3 * i) % mockEventTypes.length) ""
      actor := ⟨users.getD (rand (3 * i + 2) % users.length) ""⟩
      repo := ⟨repositories.getD (rand (3 * i + 1) % repositories.length) ""⟩
      created_at := now - i * 3600000 }

/-- `fetchGitHubTimeline` (server.js lines 39–112) as a recursion over
the per-endpoint outcomes (in endpoint order).  A 2xx response is final:
its events are filtered to `interestingTypes`; an empty filtered set
falls back to the unfiltered events (line 85).  Every non-2xx status
(403, 401 and all others) and every thrown error moves on to the next
candidate; exhausting all candidates yields the mock data (line 111).
The function is total: no outcome assignment makes it throw. -/
def fetchGitHubTimeline (rand : Nat → Nat) (now : Int) :
    List EndpointOutcome → List Event
  | [] => getEnhancedMockGitHubEvents rand now
  | .ok events :: _ =>
      let filteredEvents := events.filter fun event =>
        interestingTypes.contains event.type
      if filteredEvents.length > 0 then filteredEvents else events
  | .httpError _ :: rest => fetchGitHubTimeline rand now rest
  | .netError :: rest => fetchGitHubTimeline rand now rest

/-! ## Digest Formatter (`formatGitHubEvents`, server.js lines 147–169) -/

/-- The `eventTypes` object literal of lines 148–157: the fixed lookup
table from event kind to verb phrase. -/
def eventTypesTable : List (String × String) :=
  [ ("PushEvent", "🚀 pushed to")
  , ("CreateEvent", "✨ created")
  , ("WatchEvent", "⭐ starred")
  , ("ForkEvent", "🍴 forked")
  , ("IssuesEvent", "🐛 opened issue in")
  , ("PullRequestEvent", "🔄 created pull request in")
  , ("ReleaseEvent", "🎉 released in")
  , ("PublicEvent", "🌟 made public") ]

/-- The own-key portion of `eventTypes[event.type] || '💫 had activity in'`
(line 160): lookup among the eight literal keys, with the generic
fallback phrase otherwise.  JS property access additionally reaches the
members a plain object inherits from `Object.prototype`;
`eventActionProto` below models that full semantics and agrees with this
function on every kind that is not an inherited member name
(`eventActionProto_eq_eventAction`). -/
def eventAction (t : String) : String :=
  ((eventTypesTable.lookup t).getD "💫 had activity in")

/-- The body of the `.map` callback of lines 159–165.  `toLocaleString`
stands for the ambient locale/timezone rendering of
`new Date(event.created_at).toLocaleString()`; the source computes
`time` but never uses it in the returned template string. -/
def renderEventLine (toLocaleString : Int → String) (event : Event) : String :=
  let action := eventAction event.type
  let actor := event.actor.login
  let repo := event.repo.name
  let time := toLocaleString event.created_at
  action ++ " " ++ repo ++ " by @" ++ actor

/-- The property names a plain object literal inherits from
`Object.prototype` (the ECMAScript-specified members, including the
Annex B legacy accessors, as present on a stock Node/V8 runtime).
Accessing any of them on `eventTypes` yields a truthy value (a function,
or for `__proto__` the prototype object itself), so for these kinds the
`||` of line 160 never produces the fallback phrase. -/
def objectPrototypeKeys : List String :=
  [ "constructor", "hasOwnProperty", "isPrototypeOf", "propertyIsEnumerable"
  , "toLocaleString", "toString", "valueOf", "__proto__"
  , "__defineGetter__", "__defineSetter__", "__lookupGetter__", "__lookupSetter__" ]

/-- `eventTypes[event.type] || '💫 had activity in'` (line 160) with the
full JS property-access semantics: an own key of the object literal
yields its phrase; otherwise the access walks the prototype chain, and a
name of an inherited `Object.prototype` member yields that member — a
truthy value whose engine-specific interpolated rendering is supplied by
`protoRender` (e.g. `function toString() { [native code] }` on V8) — so
`||` is not taken; only a genuinely absent property makes the access
`undefined` and produces the fallback phrase. -/
def eventActionProto (protoRender : String → String) (t : String) : String :=
  match eventTypesTable.lookup t with
  | some v => v
  | none =>
      if t ∈ objectPrototypeKeys then protoRender t
      else "💫 had activity in"

/-- The `.map` callback of lines 159–165 under the prototype-aware
lookup `eventActionProto`. -/
def renderEventLineProto (protoRender : String → String)
    (toLocaleString : Int → String) (event : Event) : String :=
  let action := eventActionProto protoRender event.type
  let actor := event.actor.login
  let repo := event.repo.name
  let time := toLocaleString event.created_at
  action ++ " " ++ repo ++ " by @" ++ actor

/-- `Array.prototype.join('\n')`. -/
def joinNL : List String → String
  | [] => ""
  | [s] => s
  | s :: rest => s ++ "\n" ++ joinNL rest

/-- The banner line of the returned template string (line 168). -/
def banner : String := "🌟 Here are the latest GitHub activities:"

/-- `formatGitHubEvents` (lines 147–169), with the ambient
locale renderer made explicit:
`events.slice(0, 5).map(...).join('\n')` prefixed by the banner and a
blank line. -/
def formatGitHubEventsWith (toLocaleString : Int → String)
    (events : List Event) : String :=
  let formattedEvents := joinNL ((events.take 5).map (renderEventLine toLocaleString))
  banner ++ "\n\n" ++ formattedEvents

/-- `formatGitHubEvents` proper.  The locale renderer is instantiated
with a fixed stand-in; by `c9_format_pure_deterministic` below the
output does not depend on this choice. -/
def formatGitHubEvents (events : List Event) : String :=
  formatGitHubEventsWith (fun _ => "") events

/-- Observation used to state line-count properties: split a string at
newline characters. -/
def linesOf (s : String) : List String :=
  (s.data.splitOn '\n').map fun cs => String.mk cs

/-! ## Subscriber Directory rows -/

/-- A row of the `subscribers` table as the server writes it:
`{ email, subscribed_at, is_active }`, plus the `updated_at` column that
the unsubscribe handler sets. -/
structure Subscriber where
  email : String
  subscribed_at : Int
  is_active : Bool
  updated_at : Option Int := none
  deriving DecidableEq, Repr

/-- The directory's active rows, in table order — what
`.select('email').eq('is_active', true)` returns. -/
def activeEmails (db : List Subscriber) : List String :=
  (db.filter fun s => s.is_active).map fun s => s.email

/-- The count `/api/stats` reports: number of active rows. -/
def countActive (db : List Subscriber) : Nat :=
  (db.filter fun s => s.is_active).length

/-! ## `POST /api/signup` (server.js lines 277–348) -/

/-- The possible responses of the signup handler, by source branch:
400 `Valid email is required` (line 282), 500 database error during the
existence check (line 296), 400 `Email already subscribed` (line 300),
500 database error during insertion (line 317), or the 200 success
response carrying the inserted row (lines 336–339). -/
inductive SignupResponse where
  | invalidEmail
  | dbCheckError
  | alreadySubscribed
  | dbInsertError
  | success (subscriber : Subscriber)
  deriving DecidableEq, Repr

/-- The HTTP status each signup response is sent with. -/
def SignupResponse.status : SignupResponse → Nat
  | .invalidEmail => 400
  | .dbCheckError => 500
  | .alreadySubscribed => 400
  | .dbInsertError => 500
  | .success _ => 200

/-- The `message` field of each signup response body. -/
def SignupResponse.message : SignupResponse → String
  | .invalidEmail => "Valid email is required"
  | .dbCheckError => "Database error during email check"
  | .alreadySubscribed => "Email already subscribed"
  | .dbInsertError => "Database error during insertion"
  | .success _ => "✅ Successfully subscribed!"

/-- The `POST /api/signup` handler.  `db` is the subscriber table;
`now` is `new Date()`; `checkFails` models a genuine store error on the
existence check (any `selectError` other than the no-rows code
`PGRST116`, line 294); `insertFails` models a store error on the
insert (line 315); `emailSucceeds` tells whether the welcome-e-mail
step (fetch + send, lines 327–334) runs without throwing — its failure
is swallowed by the inner `catch`.  Returns the response together with
the table afterwards. -/
def signupHandler (db : List Subscriber) (email : String) (now : Int)
    (checkFails insertFails emailSucceeds : Bool) :
    SignupResponse × List Subscriber :=
  -- `!email || !email.includes('@')`: a missing or empty email has no
  -- '@' either, so the guard is exactly "no '@' among the characters"
  if ¬ '@' ∈ email.data then (.invalidEmail, db)
  else if checkFails then (.dbCheckError, db)
  else match db.find? fun s => s.email == email with
    | some _ => (.alreadySubscribed, db)
    | none =>
      if insertFails then (.dbInsertError, db)
      else
        let sub : Subscriber := { email := email, subscribed_at := now, is_active := true }
        -- the welcome e-mail attempt happens here; `emailSucceeds` is
        -- deliberately not consulted: either way the handler falls
        -- through to the success response (comment at line 333:
        -- "Don't fail the signup if email fails")
        (.success sub, db ++ [sub])

/-! ## `POST /api/send-updates` (server.js lines 351–390) -/

/-- The possible responses of the broadcast trigger: the early return
`{ message: 'No active subscribers found' }` (line 359), the summary
`{ message, total, sent, failed }` (lines 379–384), or the 500 handler
(line 388). -/
inductive SendUpdatesResponse where
  | noSubscribers
  | summary (total sent failed : Nat)
  | serverError
  deriving DecidableEq, Repr

/-- The `message` field of each send-updates response body. -/
def SendUpdatesResponse.message : SendUpdatesResponse → String
  | .noSubscribers => "No active subscribers found"
  | .summary _ sent _ => "📬 Updates sent to " ++ toString sent ++ " subscribers"
  | .serverError => "Failed to send updates"

/-- Whether the response body carries the `total`/`sent`/`failed`
count fields at all. -/
def SendUpdatesResponse.hasCounts : SendUpdatesResponse → Bool
  | .summary .. => true
  | _ => false

/-- One broadcast cycle's observable behaviour: the HTTP response, how
many times `fetchGitHubTimeline` was invoked, and the recipients for
which a send was attempted, in order. -/
structure CycleTrace where
  response : SendUpdatesResponse
  fetchCalls : Nat
  attempts : List String
  deriving DecidableEq, Repr

/-- The `for (const subscriber of subscribers)` loop of lines 367–377:
each recipient is attempted in order; a successful send increments
`sent`, a throw is caught and increments `failed`, and the loop
continues either way (the inter-send delay has no observable effect
here).  `sendOk e` tells whether `sendGitHubUpdate(e, …)` succeeds.
Returns `(sent, failed, attempted recipients in order)`. -/
def broadcastLoop (sendOk : String → Bool) : List String → Nat × Nat × List String
  | [] => (0, 0, [])
  | e :: rest =>
      let r := broadcastLoop sendOk rest
      if sendOk e then (r.1 + 1, r.2.1, e :: r.2.2)
      else (r.1, r.2.1 + 1, e :: r.2.2)

/-- The `POST /api/send-updates` handler: load the active subscriber
emails; if there are none, return the message-only response without
fetching; otherwise fetch once, run the loop, and answer with the
summary.  (The fetched digest itself does not influence the counts, so
the trace keeps only the number of fetch invocations.) -/
def sendUpdatesHandler (db : List Subscriber) (sendOk : String → Bool) : CycleTrace :=
  let subscribers := activeEmails db
  if subscribers.isEmpty then
    { response := .noSubscribers, fetchCalls := 0, attempts := [] }
  else
    let r := broadcastLoop sendOk subscribers
    { response := .summary subscribers.length r.1 r.2.1
      fetchCalls := 1
      attempts := r.2.2 }

/-! ## `POST /api/unsubscribe` (server.js lines 393–417) -/

/-- The possible responses of the unsubscribe handler: 400 missing
email (line 398), 500 store error (line 408), or the 200 success
response (line 412). -/
inductive UnsubscribeResponse where
  | missingEmail
  | dbError
  | success
  deriving DecidableEq, Repr

/-- The HTTP status each unsubscribe response is sent with. -/
def UnsubscribeResponse.status : UnsubscribeResponse → Nat
  | .missingEmail => 400
  | .dbError => 500
  | .success => 200

/-- The `message` field of each unsubscribe response body. -/
def UnsubscribeResponse.message : UnsubscribeResponse → String
  | .missingEmail => "Email is required"
  | .dbError => "Database error"
  | .success => "👋 Successfully unsubscribed"

/-- The `POST /api/unsubscribe` handler.  A missing or empty `email`
(both falsy in `if (!email)`) yields 400; otherwise
`.update({ is_active: false, updated_at: now }).eq('email', email)`
runs — `updateFails` models a store error; on store success the
handler answers 200 whether or not any row matched. -/
def unsubscribeHandler (db : List Subscriber) (email : String) (now : Int)
    (updateFails : Bool) : UnsubscribeResponse × List Subscriber :=
  if email = "" then (.missingEmail, db)
  else if updateFails then (.dbError, db)
  else (.success, db.map fun s =>
    if s.email == email then { s with is_active := false, updated_at := some now } else s)

/-! ## Helper lemmas -/

/-- The broadcast loop counts exactly the successes and the failures of
the recipient list, and attempts every recipient in order. -/
theorem broadcastLoop_spec (sendOk : String → Bool) (l : List String) :
    broadcastLoop sendOk l =
      ((l.filter sendOk).length, (l.filter fun e => !sendOk e).length, l) := by
  induction l with
  | nil => rfl
  | cons e rest ih =>
      cases h : sendOk e <;>
        simp [broadcastLoop, ih, List.filter_cons, h]

/-- Successes and failures of a filter partition the list. -/
theorem length_filter_add_length_filter_not (p : String → Bool) (l : List String) :
    (l.filter p).length + (l.filter fun e => !p e).length = l.length := by
  induction l with
  | nil => rfl
  | cons e rest ih =>
      cases h : p e <;> simp [List.filter_cons, h, ih] <;> omega

/-- `find?` skips a prefix in which nothing matches. -/
theorem find?_append_of_none {p : Subscriber → Bool} {l₁ : List Subscriber}
    (l₂ : List Subscriber) (h : l₁.find? p = none) :
    (l₁ ++ l₂).find? p = l₂.find? p := by
  induction l₁ with
  | nil => rfl
  | cons a l ih =>
      cases hp : p a with
      | true =>
          rw [List.find?_cons_of_pos _ hp] at h
          exact absurd h (by simp)
      | false =>
          rw [List.find?_cons_of_neg _ (by simp [hp])] at h
          rw [List.cons_append, List.find?_cons_of_neg _ (by simp [hp])]
          exact ih h

/-! ## Claims -/

/-- C1 (counterexample).  The claim says a broadcast cycle with zero
active subscribers returns `{sent: 0, failed: 0, total: 0}`.  On the
code it does not: the early return at server.js line 359 answers
`{ message: 'No active subscribers found' }`, a body with no `sent`,
`failed` or `total` fields at all (the fetch is indeed not invoked). -/
theorem c1_zero_subscribers_counterexample :
    (sendUpdatesHandler [{ email := "a@b.com", subscribed_at := 0, is_active := false }]
        fun _ => true).response = .noSubscribers
    ∧ (sendUpdatesHandler [{ email := "a@b.com", subscribed_at := 0, is_active := false }]
        fun _ => true).response.hasCounts = false
    ∧ (sendUpdatesHandler [{ email := "a@b.com", subscribed_at := 0, is_active := false }]
        fun _ => true).response ≠ .summary 0 0 0
    ∧ (sendUpdatesHandler [{ email := "a@b.com", subscribed_at := 0, is_active := false }]
        fun _ => true).fetchCalls = 0 := by
  decide

/-- C1 (amended).  A broadcast cycle whose active-subscriber list is
empty returns the message-only response
`{ message: 'No active subscribers found' }` — carrying no
`sent`/`failed`/`total` fields — does not invoke the event-source
fetch, and attempts no send. -/
theorem c1_zero_subscribers_no_fetch (db : List Subscriber)
    (sendOk : String → Bool) (h : activeEmails db = []) :
    sendUpdatesHandler db sendOk =
      { response := .noSubscribers, fetchCalls := 0, attempts := [] }
    ∧ (sendUpdatesHandler db sendOk).response.message = "No active subscribers found"
    ∧ (sendUpdatesHandler db sendOk).response.hasCounts = false := by
  have hh : (activeEmails db).isEmpty = true := by simp [h]
  refine ⟨?_, ?_, ?_⟩ <;> simp [sendUpdatesHandler, hh, SendUpdatesResponse.message,
    SendUpdatesResponse.hasCounts]

/-- C1 (witness for the amended theorem): a directory holding one
inactive subscriber has an empty active list. -/
theorem c1_zero_subscribers_no_fetch_witness :
    sendUpdatesHandler [{ email := "a@b.com", subscribed_at := 5, is_active := false }]
        (fun _ => false) =
      { response := .noSubscribers, fetchCalls := 0, attempts := [] }
    ∧ (sendUpdatesHandler [{ email := "a@b.com", subscribed_at := 5, is_active := false }]
        (fun _ => false)).response.message = "No active subscribers found"
    ∧ (sendUpdatesHandler [{ email := "a@b.com", subscribed_at := 5, is_active := false }]
        (fun _ => false)).response.hasCounts = false :=
  c1_zero_subscribers_no_fetch _ _ (by decide)

/-- C2 (counterexample).  The claim says `fetchGitHubTimeline` returns
a non-empty sequence for every outcome of the candidate endpoints.  It
does not: if the first endpoint answers 2xx with an empty event array,
line 85 returns that empty array unchanged (the empty filtered set
falls back to the — also empty — unfiltered set). -/
theorem c2_fetch_counterexample :
    fetchGitHubTimeline (fun _ => 0) 0
      [.ok [], .httpError 403, .httpError 403, .httpError 403] = [] := by
  decide

/-- C2 (amended).  `fetchGitHubTimeline` never throws (it is total on
every outcome assignment); when every candidate endpoint fails — in
particular when every endpoint answers HTTP 403 — it returns the
synthetic sequence of `getEnhancedMockGitHubEvents`, which has exactly
10 records and is non-empty.  (A 2xx response carrying an empty event
list, however, is returned as-is, i.e. empty.) -/
theorem c2_all_fail_mock (rand : Nat → Nat) (now : Int)
    (outcomes : List EndpointOutcome) (h : ∀ o ∈ outcomes, o.isOk = false) :
    fetchGitHubTimeline rand now outcomes = getEnhancedMockGitHubEvents rand now
    ∧ (getEnhancedMockGitHubEvents rand now).length = 10
    ∧ getEnhancedMockGitHubEvents rand now ≠ [] := by
  refine ⟨?_, ?_, ?_⟩
  · induction outcomes with
    | nil => rfl
    | cons o rest ih =>
        cases o with
        | ok events =>
            exact absurd (h _ (List.mem_cons_self _ _))
              (by simp [EndpointOutcome.isOk])
        | httpError s =>
            have hr := ih (fun o ho => h o (List.mem_cons_of_mem _ ho))
            simpa [fetchGitHubTimeline] using hr
        | netError =>
            have hr := ih (fun o ho => h o (List.mem_cons_of_mem _ ho))
            simpa [fetchGitHubTimeline] using hr
  · simp [getEnhancedMockGitHubEvents]
  · intro hcon
    have : (getEnhancedMockGitHubEvents rand now).length = 0 := by simp [hcon]
    simp [getEnhancedMockGitHubEvents] at this

/-- C2 (witness): all four candidate endpoints answering HTTP 403
yields the 10-record mock sequence. -/
theorem c2_all_fail_mock_witness :
    (∀ o ∈ endpoints.map fun _ => EndpointOutcome.httpError 403, o.isOk = false)
    ∧ (fetchGitHubTimeline (fun _ => 0) 7
          (endpoints.map fun _ => EndpointOutcome.httpError 403) =
        getEnhancedMockGitHubEvents (fun _ => 0) 7
      ∧ (getEnhancedMockGitHubEvents (fun _ => 0) 7).length = 10
      ∧ getEnhancedMockGitHubEvents (fun _ => 0) 7 ≠ []) :=
  ⟨by decide, c2_all_fail_mock (fun _ => 0) 7 _ (by decide)⟩

/-- C3 (confirmed).  A broadcast cycle over a non-empty active list of
`N` recipients, where the dispatcher fails for exactly the recipients
of `F` (those `e` with `sendOk e = false`) and succeeds for the rest,
answers `{sent: N - |F|, failed: |F|, total: N}`, and a send is
attempted for every one of the `N` recipients in listing order — no
failure aborts the loop for subsequent recipients. -/
theorem c3_cycle_counts (db : List Subscriber) (sendOk : String → Bool)
    (h : activeEmails db ≠ []) :
    (sendUpdatesHandler db sendOk).response =
      .summary (activeEmails db).length
        ((activeEmails db).length -
          ((activeEmails db).filter fun e => !sendOk e).length)
        (((activeEmails db).filter fun e => !sendOk e).length)
    ∧ (sendUpdatesHandler db sendOk).attempts = activeEmails db
    ∧ (sendUpdatesHandler db sendOk).fetchCalls = 1 := by
  have hh : (activeEmails db).isEmpty = false := by
    cases hA : activeEmails db with
    | nil => exact absurd hA h
    | cons a l => rfl
  have hsent : ((activeEmails db).filter sendOk).length =
      (activeEmails db).length -
        ((activeEmails db).filter fun e => !sendOk e).length := by
    have := length_filter_add_length_filter_not sendOk (activeEmails db)
    omega
  refine ⟨?_, ?_, ?_⟩ <;>
    simp [sendUpdatesHandler, hh, broadcastLoop_spec, hsent]

/-- C3 (witness): three active recipients of which exactly the second
fails give `{sent: 2, failed: 1, total: 3}`, with all three attempted
in order. -/
theorem c3_cycle_counts_witness :
    activeEmails
        [ { email := "a@x.com", subscribed_at := 0, is_active := true }
        , { email := "b@x.com", subscribed_at := 1, is_active := true }
        , { email := "c@x.com", subscribed_at := 2, is_active := true } ] ≠ []
    ∧ ((sendUpdatesHandler
        [ { email := "a@x.com", subscribed_at := 0, is_active := true }
        , { email := "b@x.com", subscribed_at := 1, is_active := true }
        , { email := "c@x.com", subscribed_at := 2, is_active := true } ]
        fun e => !(e == "b@x.com")).response = .summary 3 2 1
      ∧ (sendUpdatesHandler
        [ { email := "a@x.com", subscribed_at := 0, is_active := true }
        , { email := "b@x.com", subscribed_at := 1, is_active := true }
        , { email := "c@x.com", subscribed_at := 2, is_active := true } ]
        fun e => !(e == "b@x.com")).attempts = ["a@x.com", "b@x.com", "c@x.com"]) := by
  constructor
  · decide
  · have h := c3_cycle_counts
      [ { email := "a@x.com", subscribed_at := 0, is_active := true }
      , { email := "b@x.com", subscribed_at := 1, is_active := true }
      , { email := "c@x.com", subscribed_at := 2, is_active := true } ]
      (fun e => !(e == "b@x.com")) (by decide)
    refine ⟨?_, ?_⟩
    · have h1 := h.1
      simpa using h1
    · simpa using h.2.1

/-- C5 (confirmed).  As soon as one candidate endpoint answers 2xx
(after any run of failing candidates), `fetchGitHubTimeline` filters
the parsed events to the known-interesting kinds, falls back to the
unfiltered events if that filtered set is empty, and returns without
consulting any later candidate: the result does not depend on `rest`. -/
theorem c5_first_success_wins (rand : Nat → Nat) (now : Int)
    (pre : List EndpointOutcome) (es : List Event) (rest : List EndpointOutcome)
    (h : ∀ o ∈ pre, o.isOk = false) :
    fetchGitHubTimeline rand now (pre ++ .ok es :: rest) =
      (if ((es.filter fun event => interestingTypes.contains event.type).length > 0)
        then es.filter fun event => interestingTypes.contains event.type
        else es) := by
  induction pre with
  | nil => rfl
  | cons o pre' ih =>
      cases o with
      | ok events =>
          exact absurd (h _ (List.mem_cons_self _ _))
            (by simp [EndpointOutcome.isOk])
      | httpError s =>
          simpa [fetchGitHubTimeline] using
            ih (fun o ho => h o (List.mem_cons_of_mem _ ho))
      | netError =>
          simpa [fetchGitHubTimeline] using
            ih (fun o ho => h o (List.mem_cons_of_mem _ ho))

/-- A kind that is not a key of the lookup table has no table entry. -/
theorem lookup_eventTypesTable_eq_none {t : String}
    (h : t ∉ eventTypesTable.map Prod.fst) :
    eventTypesTable.lookup t = none := by
  simp only [eventTypesTable, List.map_cons, List.map_nil, List.mem_cons,
    List.mem_singleton, not_or] at h
  obtain ⟨h1, h2, h3, h4, h5, h6, h7, h8, -⟩ := h
  simp [eventTypesTable, List.lookup, beq_false_of_ne h1,
    beq_false_of_ne h2, beq_false_of_ne h3, beq_false_of_ne h4,
    beq_false_of_ne h5, beq_false_of_ne h6, beq_false_of_ne h7,
    beq_false_of_ne h8]

/-- Outside the inherited `Object.prototype` member names, the
prototype-aware lookup coincides with the own-key lookup, whatever the
engine's rendering of the inherited members. -/
theorem eventActionProto_eq_eventAction (pr : String → String) (t : String)
    (hp : t ∉ objectPrototypeKeys) :
    eventActionProto pr t = eventAction t := by
  unfold eventActionProto eventAction
  cases h : eventTypesTable.lookup t with
  | some v => rfl
  | none => simp [hp]

/-- C6 (counterexample).  The claim says every kind outside the fixed
lookup table is rendered with the generic fallback phrase.  On the
program it is not: `eventTypes['toString']` — `toString` is no key of
the object literal — walks the prototype chain to the inherited, truthy
`Object.prototype.toString`, so `|| '💫 had activity in'` is never
taken and the line renders that member's stringification (on a stock
Node/V8 runtime, `function toString() { [native code] }`) instead of
the fallback phrase. -/
theorem c6_prototype_key_counterexample :
    "toString" ∉ eventTypesTable.map Prod.fst
    ∧ renderEventLineProto (fun s => "function " ++ s ++ "() { [native code] }")
        (fun _ => "")
        { type := "toString", actor := ⟨"octocat"⟩, repo := ⟨"octo/repo"⟩
          created_at := 0 } =
      "function toString() { [native code] }" ++ " " ++ "octo/repo" ++ " by @" ++ "octocat"
    ∧ renderEventLineProto (fun s => "function " ++ s ++ "() { [native code] }")
        (fun _ => "")
        { type := "toString", actor := ⟨"octocat"⟩, repo := ⟨"octo/repo"⟩
          created_at := 0 } ≠
      "💫 had activity in" ++ " " ++ "octo/repo" ++ " by @" ++ "octocat" :=
  ⟨by decide, by decide, by decide⟩

/-- C6 (amended).  An event whose kind is neither a key of the fixed
lookup table nor the name of an inherited `Object.prototype` member is
rendered with the generic fallback phrase `💫 had activity in` — for
every engine rendering of the inherited members and every locale
renderer — and the formatter, a total function of events carrying actor
and repo fields, does not throw.  (A kind naming an inherited member
instead renders that member's stringification: see the
counterexample.) -/
theorem c6_unknown_kind_fallback_proto (t a r : String) (ts : Int)
    (pr : String → String) (lr : Int → String)
    (h : t ∉ eventTypesTable.map Prod.fst) (hp : t ∉ objectPrototypeKeys) :
    renderEventLineProto pr lr { type := t, actor := ⟨a⟩, repo := ⟨r⟩, created_at := ts } =
      "💫 had activity in" ++ " " ++ r ++ " by @" ++ a := by
  simp [renderEventLineProto, eventActionProto,
    lookup_eventTypesTable_eq_none h, hp]

/-- C6 (witness): a `GollumEvent` — absent from the table and no
`Object.prototype` member name — gets the fallback phrase. -/
theorem c6_unknown_kind_fallback_proto_witness :
    ("GollumEvent" ∉ eventTypesTable.map Prod.fst
      ∧ "GollumEvent" ∉ objectPrototypeKeys)
    ∧ renderEventLineProto (fun s => "function " ++ s ++ "() { [native code] }")
        (fun _ => "")
        { type := "GollumEvent", actor := ⟨"octocat"⟩, repo := ⟨"octo/wiki"⟩
          created_at := 3 } =
      "💫 had activity in" ++ " " ++ "octo/wiki" ++ " by @" ++ "octocat" :=
  ⟨⟨by decide, by decide⟩,
    c6_unknown_kind_fallback_proto "GollumEvent" "octocat" "octo/wiki" 3
      (fun s => "function " ++ s ++ "() { [native code] }") (fun _ => "")
      (by decide) (by decide)⟩

/-- C7 (confirmed).  Signing up a fresh valid email succeeds and
inserts one row; an identical second signup answers 400
`Email already subscribed`, leaves the table exactly as it was — in
particular the active-subscriber count is unchanged and no second
record is inserted. -/
theorem c7_duplicate_signup (db : List Subscriber) (email : String)
    (now now' : Int) (eo1 ins2 eo2 : Bool)
    (hvalid : '@' ∈ email.data)
    (hnew : db.find? (fun s => s.email == email) = none) :
    (signupHandler db email now false false eo1).1 =
        .success { email := email, subscribed_at := now, is_active := true }
    ∧ signupHandler (signupHandler db email now false false eo1).2 email now' false ins2 eo2 =
        (.alreadySubscribed, (signupHandler db email now false false eo1).2)
    ∧ SignupResponse.status .alreadySubscribed = 400
    ∧ SignupResponse.message .alreadySubscribed = "Email already subscribed"
    ∧ countActive
        (signupHandler (signupHandler db email now false false eo1).2 email now' false ins2 eo2).2 =
        countActive (signupHandler db email now false false eo1).2 := by
  have h1 : signupHandler db email now false false eo1 =
      (.success { email := email, subscribed_at := now, is_active := true },
        db ++ [{ email := email, subscribed_at := now, is_active := true }]) := by
    simp [signupHandler, hvalid, hnew]
  have h2 : (db ++ [({ email := email, subscribed_at := now, is_active := true } : Subscriber)]).find?
      (fun s => s.email == email) =
      some { email := email, subscribed_at := now, is_active := true } := by
    rw [find?_append_of_none _ hnew]
    simp [List.find?_cons_of_pos]
  have h3 : signupHandler (signupHandler db email now false false eo1).2 email now' false ins2 eo2 =
      (.alreadySubscribed, (signupHandler db email now false false eo1).2) := by
    rw [h1]
    simp [signupHandler, hvalid, h2]
  refine ⟨by rw [h1], h3, rfl, rfl, by rw [h3]⟩

/-- C7 (witness): signup of `a@b.com` on an empty table, then a second
identical signup. -/
theorem c7_duplicate_signup_witness :
    ('@' ∈ "a@b.com".data ∧
      ([] : List Subscriber).find? (fun s => s.email == "a@b.com") = none)
    ∧ ((signupHandler [] "a@b.com" 1 false false true).1 =
        .success { email := "a@b.com", subscribed_at := 1, is_active := true }
      ∧ signupHandler (signupHandler [] "a@b.com" 1 false false true).2 "a@b.com" 2 false false true =
          (.alreadySubscribed, (signupHandler [] "a@b.com" 1 false false true).2)
      ∧ SignupResponse.status .alreadySubscribed = 400
      ∧ SignupResponse.message .alreadySubscribed = "Email already subscribed"
      ∧ countActive
          (signupHandler (signupHandler [] "a@b.com" 1 false false true).2 "a@b.com" 2 false false true).2 =
          countActive (signupHandler [] "a@b.com" 1 false false true).2) :=
  ⟨⟨by decide, by decide⟩,
    c7_duplicate_signup [] "a@b.com" 1 2 true false true (by decide) (by decide)⟩

/-- C8 (confirmed).  When the directory insert succeeds, a failing
welcome-e-mail step (`emailSucceeds = false`, i.e. the fetch or the
send throws) does not fail the request: the handler still answers the
200 success response with the created subscriber, and its whole
behaviour is identical to the run in which the e-mail step succeeds. -/
theorem c8_signup_survives_email_failure (db : List Subscriber)
    (email : String) (now : Int)
    (hvalid : '@' ∈ email.data)
    (hnew : db.find? (fun s => s.email == email) = none) :
    signupHandler db email now false false false =
      (.success { email := email, subscribed_at := now, is_active := true },
        db ++ [{ email := email, subscribed_at := now, is_active := true }])
    ∧ (signupHandler db email now false false false).1.status = 200
    ∧ signupHandler db email now false false false =
        signupHandler db email now false false true := by
  have h1 : signupHandler db email now false false false =
      (.success { email := email, subscribed_at := now, is_active := true },
        db ++ [{ email := email, subscribed_at := now, is_active := true }]) := by
    simp [signupHandler, hvalid, hnew]
  exact ⟨h1, by rw [h1]; rfl, rfl⟩

/-- C8 (witness): signup of `c@d.org` over a one-row table with the
e-mail step throwing. -/
theorem c8_signup_survives_email_failure_witness :
    ('@' ∈ "c@d.org".data ∧
      [({ email := "a@b.com", subscribed_at := 0, is_active := true } : Subscriber)].find?
        (fun s => s.email == "c@d.org") = none)
    ∧ (signupHandler [{ email := "a@b.com", subscribed_at := 0, is_active := true }]
          "c@d.org" 9 false false false =
        (.success { email := "c@d.org", subscribed_at := 9, is_active := true },
          [{ email := "a@b.com", subscribed_at := 0, is_active := true },
            { email := "c@d.org", subscribed_at := 9, is_active := true }])
      ∧ (signupHandler [{ email := "a@b.com", subscribed_at := 0, is_active := true }]
          "c@d.org" 9 false false false).1.status = 200
      ∧ signupHandler [{ email := "a@b.com", subscribed_at := 0, is_active := true }]
          "c@d.org" 9 false false false =
        signupHandler [{ email := "a@b.com", subscribed_at := 0, is_active := true }]
          "c@d.org" 9 false false true) :=
  ⟨⟨by decide, by decide⟩,
    c8_signup_survives_email_failure _ "c@d.org" 9 (by decide) (by decide)⟩

/-- C9 (confirmed).  The digest formatter is pure and deterministic:
its output is the same for any two ambient locale/timezone renderers
(`new Date(...).toLocaleString()` is computed but never used in the
returned string), and therefore does not depend on current time,
locale or timezone.  Being a total Lean function of its argument, two
evaluations on the same input are trivially equal. -/
theorem c9_format_pure_deterministic (lr1 lr2 : Int → String)
    (events : List Event) :
    formatGitHubEventsWith lr1 events = formatGitHubEventsWith lr2 events := rfl

/-- C10 (confirmed).  For a non-empty email, `POST /api/unsubscribe`
answers the 200 success response whenever the store update succeeds —
also when no subscriber with that email exists, in which case the
update touches zero rows and the table is unchanged. -/
theorem c10_unsubscribe_no_match_success (db : List Subscriber)
    (email : String) (now : Int) (hne : email ≠ "") :
    (unsubscribeHandler db email now false).1 = .success
    ∧ (unsubscribeHandler db email now false).1.status = 200
    ∧ (unsubscribeHandler db email now false).1.message = "👋 Successfully unsubscribed"
    ∧ ((∀ s ∈ db, s.email ≠ email) → (unsubscribeHandler db email now false).2 = db) := by
  refine ⟨?_, ?_, ?_, ?_⟩
  · simp [unsubscribeHandler, hne]
  · simp [unsubscribeHandler, hne, UnsubscribeResponse.status]
  · simp [unsubscribeHandler, hne, UnsubscribeResponse.message]
  · intro hnm
    simp only [unsubscribeHandler, if_neg hne, Bool.false_eq_true, if_false]
    have hid : ∀ s ∈ db,
        (if s.email == email
          then { s with is_active := false, updated_at := some now } else s) = s := by
      intro s hs
      simp [beq_false_of_ne (hnm s hs)]
    calc db.map (fun s => if s.email == email
            then { s with is_active := false, updated_at := some now } else s)
        = db.map id := List.map_congr_left hid
      _ = db := List.map_id db

/-- C10 (witness): unsubscribing `a@b.com` from a table that only
holds `x@y.com` answers 200 and leaves the table unchanged. -/
theorem c10_unsubscribe_no_match_success_witness :
    ("a@b.com" : String) ≠ ""
    ∧ ((unsubscribeHandler [{ email := "x@y.com", subscribed_at := 0, is_active := true }]
          "a@b.com" 4 false).1 = .success
      ∧ (unsubscribeHandler [{ email := "x@y.com", subscribed_at := 0, is_active := true }]
          "a@b.com" 4 false).1.status = 200
      ∧ (unsubscribeHandler [{ email := "x@y.com", subscribed_at := 0, is_active := true }]
          "a@b.com" 4 false).1.message = "👋 Successfully unsubscribed"
      ∧ ((∀ s ∈ [({ email := "x@y.com", subscribed_at := 0, is_active := true } : Subscriber)],
            s.email ≠ "a@b.com") →
          (unsubscribeHandler [{ email := "x@y.com", subscribed_at := 0, is_active := true }]
            "a@b.com" 4 false).2 =
          [{ email := "x@y.com", subscribed_at := 0, is_active := true }])) :=
  ⟨by decide,
    c10_unsubscribe_no_match_success
      [{ email := "x@y.com", subscribed_at := 0, is_active := true }] "a@b.com" 4 (by decide)⟩

/-- Sample event of a recognized kind, used by concrete witnesses. -/
def watchSample : Event :=
  { type := "WatchEvent", actor := ⟨"u1"⟩, repo := ⟨"r/one"⟩, created_at := 0 }

/-- Sample event of an unrecognized kind, used by concrete witnesses. -/
def unknownSample : Event :=
  { type := "UnknownEvent", actor := ⟨"u2"⟩, repo := ⟨"r/two"⟩, created_at := 1 }

/-- Sample push event, used by concrete witnesses. -/
def pushSample : Event :=
  { type := "PushEvent", actor := ⟨"u3"⟩, repo := ⟨"r/three"⟩, created_at := 2 }

/-- C5 (witness): a 403 candidate followed by a 2xx candidate whose
events contain one recognized kind; a later candidate would have
offered a push event, but is never consulted. -/
theorem c5_first_success_wins_witness :
    (∀ o ∈ [EndpointOutcome.httpError 403], o.isOk = false)
    ∧ fetchGitHubTimeline (fun _ => 0) 0
        ([EndpointOutcome.httpError 403] ++
          .ok [watchSample, unknownSample] :: [.ok [pushSample]]) =
      (if (([watchSample, unknownSample].filter fun event =>
              interestingTypes.contains event.type).length > 0)
        then [watchSample, unknownSample].filter fun event =>
              interestingTypes.contains event.type
        else [watchSample, unknownSample]) :=
  ⟨by decide,
    c5_first_success_wins (fun _ => 0) 0 [EndpointOutcome.httpError 403]
      [watchSample, unknownSample] [.ok [pushSample]] (by decide)⟩

/-! ## Line counting for the Digest Formatter (claim C4) -/

/-- A string with no newline character satisfies the splitter predicate
nowhere. -/
theorem no_newline_pred {s : String} (h : '\n' ∉ s.data) :
    ∀ x ∈ s.data, ¬(x == '\n') = true := by
  intro x hx hbeq
  exact h (eq_of_beq hbeq ▸ hx)

/-- Every phrase the lookup produces — the eight table entries and the
fallback — is newline-free. -/
theorem eventAction_no_newline (t : String) : '\n' ∉ (eventAction t).data := by
  simp only [eventAction, eventTypesTable, List.lookup]
  repeat' split
  all_goals decide

/-- A rendered event line contains no newline when the actor handle and
the repository name contain none. -/
theorem renderEventLine_no_newline (lr : Int → String) (e : Event)
    (ha : '\n' ∉ e.actor.login.data) (hr : '\n' ∉ e.repo.name.data) :
    '\n' ∉ (renderEventLine lr e).data := by
  intro hmem
  simp only [renderEventLine, String.data_append, List.mem_append] at hmem
  rcases hmem with ((((h1 | h2) | h3) | h4) | h5)
  · exact eventAction_no_newline _ h1
  · exact (by decide : '\n' ∉ (" " : String).data) h2
  · exact hr h3
  · exact (by decide : '\n' ∉ (" by @" : String).data) h4
  · exact ha h5

/-- Splitting `join('\n')` of a non-empty list of newline-free strings
at newlines recovers exactly the list. -/
theorem splitOn_joinNL (l : List String) (h : l ≠ [])
    (hnl : ∀ s ∈ l, '\n' ∉ s.data) :
    (joinNL l).data.splitOn '\n' = l.map String.data := by
  induction l with
  | nil => exact absurd rfl h
  | cons s rest ih =>
      cases rest with
      | nil =>
          simp only [joinNL, List.map_cons, List.map_nil, List.splitOn]
          exact List.splitOnP_eq_single _ _
            (no_newline_pred (hnl s (List.mem_cons_self _ _)))
      | cons r rs =>
          have hs := hnl s (List.mem_cons_self _ _)
          have hrest : ∀ x ∈ r :: rs, '\n' ∉ x.data :=
            fun x hx => hnl x (List.mem_cons_of_mem _ hx)
          have hjoin : (joinNL (s :: r :: rs)).data =
              s.data ++ '\n' :: (joinNL (r :: rs)).data := by
            show ((s ++ "\n") ++ joinNL (r :: rs)).data = _
            simp [String.data_append, List.append_assoc]
          rw [List.splitOn, hjoin,
            List.splitOnP_first (fun x => x == '\n') s.data
              (no_newline_pred hs) '\n' (by decide)]
          have ih' := ih (by simp) hrest
          rw [List.splitOn] at ih'
          rw [ih', List.map_cons]
          rfl

/-- C4 (confirmed).  For a non-empty event list whose actor handles and
repository names are newline-free, the formatter output splits at
newlines into the banner, one blank separator line, and then exactly
`min(5, len(events))` event lines — the renderings of the first at most
five events in input order, with no re-sorting. -/
theorem c4_format_line_count (events : List Event) (hne : events ≠ [])
    (hnl : ∀ e ∈ events, '\n' ∉ e.actor.login.data ∧ '\n' ∉ e.repo.name.data) :
    linesOf (formatGitHubEvents events) =
      banner :: "" :: (events.take 5).map (renderEventLine fun _ => "")
    ∧ ((events.take 5).map (renderEventLine fun _ => "")).length =
        min 5 events.length := by
  have hlinesnl : ∀ s ∈ (events.take 5).map (renderEventLine fun _ => ""),
      '\n' ∉ s.data := by
    intro s hs
    rcases List.mem_map.mp hs with ⟨e, he, rfl⟩
    have he' := hnl e (List.take_subset _ _ he)
    exact renderEventLine_no_newline _ e he'.1 he'.2
  have hlne : (events.take 5).map (renderEventLine fun _ => "") ≠ [] := by
    cases events with
    | nil => exact absurd rfl hne
    | cons e es => simp [List.take]
  constructor
  · have hdata : (formatGitHubEvents events).data =
        banner.data ++ '\n' ::
          ('\n' :: (joinNL ((events.take 5).map (renderEventLine fun _ => ""))).data) := by
      show (banner ++ "\n\n" ++
        joinNL ((events.take 5).map (renderEventLine fun _ => ""))).data = _
      simp [String.data_append, List.append_assoc]
    have hbanner : ∀ x ∈ banner.data, ¬(x == '\n') = true := by decide
    have hsplit : (formatGitHubEvents events).data.splitOn '\n' =
        banner.data :: ([] : List Char) ::
          ((events.take 5).map (renderEventLine fun _ => "")).map String.data := by
      rw [List.splitOn, hdata,
        List.splitOnP_first (fun x => x == '\n') banner.data hbanner '\n' (by decide)]
      have h2 : (('\n' :: (joinNL ((events.take 5).map (renderEventLine fun _ => ""))).data)) =
          ([] : List Char) ++ '\n' ::
            (joinNL ((events.take 5).map (renderEventLine fun _ => ""))).data := rfl
      rw [h2, List.splitOnP_first (fun x => x == '\n') ([] : List Char)
        (by simp) '\n' (by decide)]
      have ihs := splitOn_joinNL _ hlne hlinesnl
      rw [List.splitOn] at ihs
      rw [ihs]
    unfold linesOf
    rw [hsplit]
    simp only [List.map_cons, List.map_map, List.cons.injEq]
    exact ⟨trivial, trivial, List.map_congr_left fun e _ => rfl⟩
  · simp [List.length_map, List.length_take]

/-- C4 (witness): two events (one recognized, one unknown kind) give
the banner, the blank line, and exactly `min(5, 2) = 2` event lines in
input order. -/
theorem c4_format_line_count_witness :
    ([watchSample, unknownSample] ≠ ([] : List Event)
      ∧ (∀ e ∈ [watchSample, unknownSample],
          '\n' ∉ e.actor.login.data ∧ '\n' ∉ e.repo.name.data))
    ∧ (linesOf (formatGitHubEvents [watchSample, unknownSample]) =
        banner :: "" ::
          ([watchSample, unknownSample].take 5).map (renderEventLine fun _ => "")
      ∧ (([watchSample, unknownSample].take 5).map (renderEventLine fun _ => "")).length =
          min 5 ([watchSample, unknownSample] : List Event).length) :=
  ⟨⟨by decide, by decide⟩,
    c4_format_line_count [watchSample, unknownSample] (by decide) (by decide)⟩

end GithubUpdates
